import Mathlib

namespace Vemorak

/-- JSON values as exchanged over the wire; `null` doubles as Python `None`
after decoding, since Python's json module maps JSON null to None. -/
inductive Json where
  | null
  | bool (b : Bool)
  | num (n : Int)
  | str (s : String)
  | arr (xs : List Json)
  | obj (kvs : List (String × Json))
  deriving Repr

/-- First-match association lookup, mirroring Python dict access on decoded
JSON objects (keys are unique in decoded dicts, so first match suffices). -/
def Json.lookup : List (String × Json) → String → Option Json
  | [], _ => none
  | (k, v) :: rest, key => if k = key then some v else Json.lookup rest key

/-- Python truthiness of a decoded JSON value. -/
def Json.truthy : Json → Bool
  | .null => false
  | .bool b => b
  | .num n => n != 0
  | .str s => s != ""
  | .arr xs => !xs.isEmpty
  | .obj kvs => !kvs.isEmpty

/-- SDK error taxonomy from `errors.py`: `base` is a plain `VemorakSdkError`,
`http` is `VmpHttpError` (a `VemorakSdkError` subclass) with its four fields,
`timeout` is `VmpTimeoutError` (the transport-timeout class). -/
inductive SdkError where
  | base (msg : String)
  | http (status : Nat) (error : String) (raw_body_text : String) (details : Option Json)
  | timeout (msg : String)
  deriving Repr

/-- Exceptions observable from the embedded code: an `SdkError` raised by the
SDK itself, a `json.JSONDecodeError` escaping from `resp.json()` on a 2xx
body, or a `KeyError`/`TypeError` from subscripting a decoded JSON value. -/
inductive PyError where
  | sdk (e : SdkError)
  | jsonDecode
  | lookupError
  deriving Repr

/-- Python `d[key]` on a decoded JSON value: `KeyError` when the key is
missing, `TypeError` when the value is not a dict. -/
def Json.pyGetItem (j : Json) (key : String) : Except PyError Json :=
  match j with
  | .obj kvs =>
      match Json.lookup kvs key with
      | some v => pure v
      | none => .error .lookupError
  | _ => .error .lookupError

/-- Python `d.get(key)` on a decoded JSON value: `Json.null` stands for the
Python `None` returned when the key is missing. -/
def Json.pyGet (j : Json) (key : String) : Except PyError Json :=
  match j with
  | .obj kvs => pure ((Json.lookup kvs key).getD .null)
  | _ => .error .lookupError

/-- Python `x or y` on decoded JSON values. -/
def Json.pyOr (v dflt : Json) : Json :=
  if v.truthy then v else dflt

/-- Python iteration over a decoded JSON value: lists yield their elements,
dicts their keys, strings their characters; other values raise `TypeError`. -/
def Json.pyIter : Json → Except PyError (List Json)
  | .arr xs => pure xs
  | .obj kvs => pure (kvs.map (fun kv => Json.str kv.1))
  | .str s => pure (s.toList.map (fun ch => Json.str (String.mk [ch])))
  | _ => .error .lookupError

/-! ## Python string primitives

Computable, structurally recursive embeddings of the Python `str` methods
the validators use (`strip`, `startswith`, `endswith`, `in`, `len`),
operating on the code-point list of the string. -/

/-- Python `value.strip()`: drop leading and trailing whitespace. -/
def pyStrip (s : String) : String :=
  String.mk (((s.toList.dropWhile Char.isWhitespace).reverse.dropWhile
    Char.isWhitespace).reverse)

/-- Python `s.startswith(p)`. -/
def pyStartsWith (s p : String) : Bool :=
  p.toList.isPrefixOf s.toList

/-- Python `s.endswith(p)`. -/
def pyEndsWith (s p : String) : Bool :=
  p.toList.isSuffixOf s.toList

/-- Python `ch in s` for a single character. -/
def pyContainsChar (s : String) (c : Char) : Bool :=
  s.toList.contains c

/-- Python `len(s)` (code points). -/
def pyLen (s : String) : Nat :=
  s.toList.length

/-! ## Validators (`validate.py`)

Each `assert_*` helper raises `VemorakSdkError` on violation and returns
`None` otherwise; here they return `Except SdkError Unit`.  String arguments
are typed, so the `isinstance(value, str)` branch of `assert_non_empty`
cannot fire in the embedding. -/

def assert_non_empty (name value : String) : Except SdkError Unit :=
  if pyStrip value = "" then
    .error (.base s!"{name} must be a non-empty string")
  else
    pure ()

def assert_tenant_id (tenant_id : String) : Except SdkError Unit := do
  assert_non_empty "tenant_id" tenant_id
  if pyLen tenant_id > 128 then
    throw (.base "tenant_id must be 1..128 chars")
  else if tenant_id.toList.any Char.isWhitespace then
    throw (.base "tenant_id must not contain spaces")
  else
    pure ()

def assert_scope (scope : String) : Except SdkError Unit := do
  assert_non_empty "scope" scope
  if pyLen scope > 128 then
    throw (.base "scope must be 1..128 chars")
  else if !pyContainsChar scope ':' then
    throw (.base "scope must contain ':' for namespacing")
  else
    pure ()

def assert_scope_prefix (sp : String) : Except SdkError Unit := do
  assert_non_empty "scope_prefix" sp
  if !pyEndsWith sp ":" then
    throw (.base "scope_prefix must end with ':' (example: user:)")
  else
    pure ()

def assert_scope_matches_prefix (scope sp : String) : Except SdkError Unit :=
  if !pyStartsWith scope sp then
    .error (.base "scope outside key prefix")
  else
    pure ()

/-- The `_UUID_LIKE` regex `[0-9a-fA-F-]{16,}` character class. -/
def isHexOrDash (c : Char) : Bool :=
  (('0' ≤ c && c ≤ '9') || ('a' ≤ c && c ≤ 'f') || ('A' ≤ c && c ≤ 'F') || c = '-')

/-- `re.match(r"^[0-9a-fA-F-]{16,}$", value)`: the match is anchored at the
start, and `$` also matches just before a single trailing newline (which the
character class itself can never consume). -/
def uuidLikeMatch (value : String) : Bool :=
  let core := if pyEndsWith value "\n" then
    String.mk (value.toList.dropLast)
  else
    value
  16 ≤ pyLen core && core.toList.all isHexOrDash

def assert_uuid_like (name value : String) : Except SdkError Unit := do
  assert_non_empty name value
  if !uuidLikeMatch value then
    throw (.base s!"{name} must look like a UUID")
  else
    pure ()

/-- `assert_limit` from `validate.py`; the limit is a Python int or None, so
the `isinstance(limit, int)` branch cannot fire in the embedding. -/
def assert_limit (limit : Option Int) : Except SdkError Unit :=
  match limit with
  | none => pure ()
  | some l =>
      if l < 1 ∨ l > 500 then
        .error (.base "limit must be within 1..500")
      else
        pure ()

/-! ## Client construction and HTTP request preparation (`client.py`)

Each SDK operation runs its local validations first and, only if they all
pass, issues exactly one HTTP request.  The embedding therefore gives each
operation a `*_prepare` function returning `Except SdkError HttpRequest`:
an `.error` result means the operation raised a validation error before any
network call, an `.ok` result is the single request it would issue. -/

/-- Python truthiness of an optional string (`None` and `""` are falsy). -/
def optStrTruthy : Option String → Bool
  | none => false
  | some s => s != ""

/-- The local state a `VmpClient` keeps after `__init__`: the bearer key and
the two optional guardrails (`_tenant_guardrail`, `_scope_prefix_guardrail`).
The base URL and timeout play no role in the embedded behaviour. -/
structure ClientState where
  api_key : String
  tenant_guardrail : Option String
  scope_prefix_guardrail : Option String
  deriving Repr

/-- Headers installed on the underlying `httpx.Client` at construction
(`VmpClient.__init__`): they ride on every request the client sends. -/
def ClientState.clientHeaders (c : ClientState) : List (String × String) :=
  [("Accept", "application/json"), ("Authorization", "Bearer " ++ c.api_key)]

/-- Per-request headers built by `VmpClient._request_json` before issuing the
call: `Accept`, plus `Authorization` only when `auth` is true, plus the
idempotency header when a truthy key is supplied. -/
def VmpClient.requestHeaders (c : ClientState) (idempotency_key : Option String)
    (auth : Bool) : List (String × String) :=
  [("Accept", "application/json")]
    ++ (if auth then [("Authorization", "Bearer " ++ c.api_key)] else [])
    ++ (match idempotency_key with
        | some k => if k ≠ "" then [("x-idempotency-key", k)] else []
        | none => [])

/-- Header merging performed by `httpx.Client.request` (external library
semantics): per-request headers are merged into the client-level default
headers, overriding entries with the same name; client-level headers whose
name does not occur among the per-request headers stay on the outgoing
request. -/
def mergeHeaders (clientLevel perRequest : List (String × String)) :
    List (String × String) :=
  clientLevel.filter (fun kv => !(perRequest.any (fun kv2 => kv2.1 == kv.1)))
    ++ perRequest

/-- The headers that actually go out on the wire for one `VmpClient` request:
the httpx merge of the client-level defaults with the per-request headers. -/
def VmpClient.wireHeaders (c : ClientState) (idempotency_key : Option String)
    (auth : Bool) : List (String × String) :=
  mergeHeaders c.clientHeaders (VmpClient.requestHeaders c idempotency_key auth)

/-- One outgoing HTTP request as assembled by `_request_json`. -/
structure HttpRequest where
  method : String
  path : String
  headers : List (String × String)
  query : List (String × Json)
  body : Option Json
  deriving Repr

/-- `VmpClient._enforce_tenant`: shape-check the tenant id, then compare it
against the configured guardrail; the guardrail only fires when it is truthy
(a non-empty string). -/
def VmpClient.enforce_tenant (c : ClientState) (tenant_id : String) :
    Except SdkError Unit := do
  assert_tenant_id tenant_id
  match c.tenant_guardrail with
  | some g =>
      if g ≠ "" ∧ tenant_id ≠ g then
        throw (.base s!"tenant_id mismatch: client is configured for {g} but request used {tenant_id}")
      else
        pure ()
  | none => pure ()

/-- `VmpClient._enforce_scope_prefix`: no-op when no guardrail is configured,
otherwise the scope must start with the configured guardrail. -/
def VmpClient.enforce_scope_pfx (c : ClientState) (scope : String) :
    Except SdkError Unit :=
  match c.scope_prefix_guardrail with
  | none => pure ()
  | some g => assert_scope_matches_prefix scope g

/-- `VmpClient.ingest` up to its single network call: guardrail checks, then
the `POST /v1/ingest` request with the serialized payload. -/
def VmpClient.ingest_prepare (c : ClientState) (tenant_id scope : String)
    (fields : Json) (meta : Option Json) (op : String)
    (idempotency_key : Option String) : Except SdkError HttpRequest := do
  VmpClient.enforce_tenant c tenant_id
  assert_scope scope
  VmpClient.enforce_scope_pfx c scope
  let payload := Json.obj
    [("tenant_id", .str tenant_id), ("scope", .str scope), ("op", .str op),
     ("fields", fields), ("meta", Json.pyOr (meta.getD .null) (Json.obj []))]
  pure
    { method := "POST", path := "/v1/ingest",
      headers := VmpClient.wireHeaders c idempotency_key true,
      query := [], body := some payload }

/-- `VmpClient.delete` up to its single network call. -/
def VmpClient.delete_prepare (c : ClientState) (tenant_id scope : String)
    (target_event_id : String) (meta : Option Json) :
    Except SdkError HttpRequest := do
  VmpClient.enforce_tenant c tenant_id
  assert_scope scope
  VmpClient.enforce_scope_pfx c scope
  assert_uuid_like "target_event_id" target_event_id
  let payload := Json.obj
    [("tenant_id", .str tenant_id), ("scope", .str scope),
     ("target_event_id", .str target_event_id),
     ("meta", Json.pyOr (meta.getD .null) (Json.obj []))]
  pure
    { method := "POST", path := "/v1/delete",
      headers := VmpClient.wireHeaders c none true,
      query := [], body := some payload }

/-- `VmpClient.admin_list_events` up to its single network call: tenant
guardrail, optional scope checks, then `assert_limit` (range 1..500). -/
def VmpClient.admin_list_events_prepare (c : ClientState) (tenant_id : String)
    (scope : Option String) (limit : Option Int) : Except SdkError HttpRequest := do
  VmpClient.enforce_tenant c tenant_id
  let _ ← (match scope with
    | some s => do
        assert_scope s
        VmpClient.enforce_scope_pfx c s
    | none => (pure () : Except SdkError Unit))
  assert_limit limit
  let query := [("tenant_id", Json.str tenant_id)]
    ++ (match scope with | some s => [("scope", Json.str s)] | none => [])
    ++ (match limit with | some l => [("limit", Json.num l)] | none => [])
  pure
    { method := "GET", path := "/v1/admin/events",
      headers := VmpClient.wireHeaders c none true,
      query := query, body := none }

/-- `VmpClient.admin_list_batches` up to its single network call: the limit is
checked inline and only rejected when it is below 1. -/
def VmpClient.admin_list_batches_prepare (c : ClientState) (tenant_id : String)
    (limit : Option Int) : Except SdkError HttpRequest := do
  VmpClient.enforce_tenant c tenant_id
  let _ ← (match limit with
    | some l =>
        if l < 1 then
          (throw (.base "limit must be a positive integer") : Except SdkError Unit)
        else
          pure ()
    | none => (pure () : Except SdkError Unit))
  let query := [("tenant_id", Json.str tenant_id)]
    ++ (match limit with | some l => [("limit", Json.num l)] | none => [])
  pure
    { method := "GET", path := "/v1/admin/batches",
      headers := VmpClient.wireHeaders c none true,
      query := query, body := none }

/-- `VmpClient.admin_list_deletion_receipts` up to its single network call:
optional scope checks, then the same inline below-1 limit check as
`admin_list_batches`. -/
def VmpClient.admin_list_deletion_receipts_prepare (c : ClientState)
    (tenant_id : String) (scope : Option String) (limit : Option Int) :
    Except SdkError HttpRequest := do
  VmpClient.enforce_tenant c tenant_id
  let _ ← (match scope with
    | some s => do
        assert_scope s
        VmpClient.enforce_scope_pfx c s
    | none => (pure () : Except SdkError Unit))
  let _ ← (match limit with
    | some l =>
        if l < 1 then
          (throw (.base "limit must be a positive integer") : Except SdkError Unit)
        else
          pure ()
    | none => (pure () : Except SdkError Unit))
  let query := [("tenant_id", Json.str tenant_id)]
    ++ (match scope with | some s => [("scope", Json.str s)] | none => [])
    ++ (match limit with | some l => [("limit", Json.num l)] | none => [])
  pure
    { method := "GET", path := "/v1/admin/deletion-receipts",
      headers := VmpClient.wireHeaders c none true,
      query := query, body := none }

/-- `VmpClient.verify_event_bundle_offline`: no local validation; the single
request it issues, with `auth=False` per-request headers merged into the
client-level defaults by httpx. -/
def VmpClient.verify_event_bundle_offline_request (c : ClientState)
    (bundle : Json) : HttpRequest :=
  { method := "POST", path := "/v1/verify/bundle",
    headers := VmpClient.wireHeaders c none false,
    query := [], body := some bundle }

/-- `VmpClient.verify_deletion_bundle_offline`: same shape as
`verify_event_bundle_offline` against `/v1/verify/deletion-bundle`. -/
def VmpClient.verify_deletion_bundle_offline_request (c : ClientState)
    (bundle : Json) : HttpRequest :=
  { method := "POST", path := "/v1/verify/deletion-bundle",
    headers := VmpClient.wireHeaders c none false,
    query := [], body := some bundle }

/-- Headers installed on the `ProvisioningClient`'s `httpx.Client` at
construction; its `_request_json` passes no per-request headers, so these go
out unchanged. -/
def ProvisioningClient.clientHeaders (provision_token : String) :
    List (String × String) :=
  [("Accept", "application/json"), ("Authorization", "Bearer " ++ provision_token)]

/-- `ProvisioningClient.list_api_keys` up to its single network call: tenant
shape check, then the inline below-1 limit check. -/
def ProvisioningClient.list_api_keys_prepare (provision_token : String)
    (tenant_id : String) (limit : Option Int) : Except SdkError HttpRequest := do
  assert_tenant_id tenant_id
  let _ ← (match limit with
    | some l =>
        if l < 1 then
          (throw (.base "limit must be a positive integer") : Except SdkError Unit)
        else
          pure ()
    | none => (pure () : Except SdkError Unit))
  let query := [("tenant_id", Json.str tenant_id)]
    ++ (match limit with | some l => [("limit", Json.num l)] | none => [])
  pure
    { method := "GET", path := "/v1/admin/api-keys",
      headers := ProvisioningClient.clientHeaders provision_token,
      query := query, body := none }

/-! ## Response classification (`_request_json`, response half)

`HttpResponse` is the observation the embedding makes of an `httpx.Response`:
the status code, the body text, and the result of `resp.json()` (`none` when
the body does not parse as JSON, in which case `resp.json()` raises). -/

structure HttpResponse where
  status_code : Nat
  text : String
  json : Option Json
  deriving Repr

/-- Python `parsed.get(key)` as an optional value: a stored JSON null decodes
to Python `None` and is indistinguishable from an absent key. -/
def dictGetPy (kvs : List (String × Json)) (key : String) : Option Json :=
  match Json.lookup kvs key with
  | some .null => none
  | some v => some v
  | none => none

/-- The response half of `VmpClient._request_json`: classify a received
response into a decoded JSON body or a raised error, exactly as the code
does after the `httpx` call returns. -/
def VmpClient.classifyResponse (resp : HttpResponse) : Except PyError Json :=
  let text := resp.text
  if resp.status_code < 200 ∨ 300 ≤ resp.status_code then
    let errStr0 := if pyStrip text = "" then "unknown error" else pyStrip text
    match resp.json with
    | some (.obj kvs) =>
        let errStr :=
          match Json.lookup kvs "error" with
          | some (.str s) => s
          | _ => errStr0
        .error (.sdk (.http resp.status_code errStr text (dictGetPy kvs "details")))
    | _ => .error (.sdk (.http resp.status_code errStr0 text none))
  else if pyStrip text = "" then
    pure (Json.obj [])
  else
    match resp.json with
    | some v => pure v
    | none => .error .jsonDecode

/-- The response half of `ProvisioningClient._request_json`, embedded from
its own lines of `client.py`. -/
def ProvisioningClient.classifyResponse (resp : HttpResponse) : Except PyError Json :=
  let text := resp.text
  if resp.status_code < 200 ∨ 300 ≤ resp.status_code then
    let errStr0 := if pyStrip text = "" then "unknown error" else pyStrip text
    match resp.json with
    | some (.obj kvs) =>
        let errStr :=
          match Json.lookup kvs "error" with
          | some (.str s) => s
          | _ => errStr0
        .error (.sdk (.http resp.status_code errStr text (dictGetPy kvs "details")))
    | _ => .error (.sdk (.http resp.status_code errStr0 text none))
  else if pyStrip text = "" then
    pure (Json.obj [])
  else
    match resp.json with
    | some v => pure v
    | none => .error .jsonDecode

/-! ## Typed response shapes (`types.py`)

Python dataclasses do not check field types, so a field annotated `str` or
`str | None` holds whatever decoded JSON value the mapping stored; such
fields are `Json` here, with `Json.null` standing for Python `None`.
Fields the mappings pass through `bool(...)` are `Bool`. -/

structure ProofPathItem where
  sibling_hex : Json
  sibling_is_left : Bool
  deriving Repr

structure ProofResponse where
  event_id : Json
  tenant_id : Json
  scope : Json
  batch_id : Json
  leaf_index : Json
  leaf_hex : Json
  root_hex : Json
  path : List ProofPathItem
  sig_base64 : Json
  pubkey_id : Json
  pubkey_base64 : Json
  pubkey_hex : Json
  batch_created_at : Json
  deriving Repr

structure EventBundleEvent where
  id : Json
  tenant_id : Json
  scope : Json
  op : Json
  created_at : Json
  fields : Json
  meta : Json
  event_hash_hex : Json
  prev_hash_hex : Json
  fields_canon : Json
  meta_canon : Json
  c_fields_hex : Json
  batch_id : Json
  leaf_index : Json
  deriving Repr

structure EventBundleRecompute where
  recomputed_event_hash_hex : Json
  matches_stored : Bool
  deriving Repr

structure EventBundleResponse where
  kind : Json
  event : EventBundleEvent
  proof : ProofResponse
  recompute : EventBundleRecompute
  deriving Repr

structure DeletionReceiptResponse where
  receipt_id : Json
  tenant_id : Json
  scope : Json
  delete_event_id : Json
  delete_event_hash_hex : Json
  sig_base64 : Json
  pubkey_id : Json
  pubkey_base64 : Json
  pubkey_hex : Json
  created_at : Json
  deriving Repr

structure DeletionReceiptBundleVerification where
  receipt_id : Json
  valid : Bool
  deriving Repr

structure DeletionReceiptBundleResponse where
  kind : Json
  receipt : DeletionReceiptResponse
  verification : DeletionReceiptBundleVerification
  delete_event_bundle : EventBundleResponse
  deriving Repr

/-! ## Bundle field mappings (`get_event_bundle`,
`_parse_event_bundle_from_dict`, `get_deletion_receipt_bundle`) -/

/-- The field mapping `VmpClient.get_event_bundle` applies to the decoded
body of `GET /v1/events/{event_id}/bundle`, embedded from its own lines. -/
def VmpClient.get_event_bundle_parse (data : Json) :
    Except PyError EventBundleResponse := do
  let ev ← data.pyGetItem "event"
  let proof ← data.pyGetItem "proof"
  let recompute ← data.pyGetItem "recompute"

  let proof_path := Json.pyOr (← proof.pyGet "path") (Json.arr [])
  let proof_path_items ← (← proof_path.pyIter).mapM (fun p => do
    pure (ProofPathItem.mk (← p.pyGetItem "sibling_hex")
      (← p.pyGetItem "sibling_is_left").truthy))

  let proof_obj := ProofResponse.mk (← proof.pyGetItem "event_id")
    (← proof.pyGetItem "tenant_id") (← proof.pyGetItem "scope")
    (← proof.pyGet "batch_id") (← proof.pyGet "leaf_index")
    (← proof.pyGet "leaf_hex") (← proof.pyGet "root_hex") proof_path_items
    (← proof.pyGet "sig_base64") (← proof.pyGet "pubkey_id")
    (← proof.pyGet "pubkey_base64") (← proof.pyGet "pubkey_hex")
    (← proof.pyGet "batch_created_at")

  let event_obj := EventBundleEvent.mk (← ev.pyGetItem "id")
    (← ev.pyGetItem "tenant_id") (← ev.pyGetItem "scope")
    (← ev.pyGetItem "op") (← ev.pyGetItem "created_at")
    (Json.pyOr (← ev.pyGet "fields") (Json.obj []))
    (Json.pyOr (← ev.pyGet "meta") (Json.obj []))
    (← ev.pyGetItem "event_hash_hex") (← ev.pyGet "prev_hash_hex")
    (← ev.pyGetItem "fields_canon") (← ev.pyGetItem "meta_canon")
    (← ev.pyGetItem "c_fields_hex") (← ev.pyGet "batch_id")
    (← ev.pyGet "leaf_index")

  let recompute_obj := EventBundleRecompute.mk
    (← recompute.pyGetItem "recomputed_event_hash_hex")
    (← recompute.pyGetItem "matches_stored").truthy

  pure (EventBundleResponse.mk (← data.pyGetItem "kind") event_obj proof_obj
    recompute_obj)

/-- `VmpClient._parse_event_bundle_from_dict`, the helper
`get_deletion_receipt_bundle` uses on the nested `delete_event_bundle`,
embedded from its own lines. -/
def VmpClient.parse_event_bundle_from_dict (data : Json) :
    Except PyError EventBundleResponse := do
  let ev ← data.pyGetItem "event"
  let proof ← data.pyGetItem "proof"
  let recompute ← data.pyGetItem "recompute"

  let proof_path := Json.pyOr (← proof.pyGet "path") (Json.arr [])
  let proof_path_items ← (← proof_path.pyIter).mapM (fun p => do
    pure (ProofPathItem.mk (← p.pyGetItem "sibling_hex")
      (← p.pyGetItem "sibling_is_left").truthy))

  let proof_obj := ProofResponse.mk (← proof.pyGetItem "event_id")
    (← proof.pyGetItem "tenant_id") (← proof.pyGetItem "scope")
    (← proof.pyGet "batch_id") (← proof.pyGet "leaf_index")
    (← proof.pyGet "leaf_hex") (← proof.pyGet "root_hex") proof_path_items
    (← proof.pyGet "sig_base64") (← proof.pyGet "pubkey_id")
    (← proof.pyGet "pubkey_base64") (← proof.pyGet "pubkey_hex")
    (← proof.pyGet "batch_created_at")

  let event_obj := EventBundleEvent.mk (← ev.pyGetItem "id")
    (← ev.pyGetItem "tenant_id") (← ev.pyGetItem "scope")
    (← ev.pyGetItem "op") (← ev.pyGetItem "created_at")
    (Json.pyOr (← ev.pyGet "fields") (Json.obj []))
    (Json.pyOr (← ev.pyGet "meta") (Json.obj []))
    (← ev.pyGetItem "event_hash_hex") (← ev.pyGet "prev_hash_hex")
    (← ev.pyGetItem "fields_canon") (← ev.pyGetItem "meta_canon")
    (← ev.pyGetItem "c_fields_hex") (← ev.pyGet "batch_id")
    (← ev.pyGet "leaf_index")

  let recompute_obj := EventBundleRecompute.mk
    (← recompute.pyGetItem "recomputed_event_hash_hex")
    (← recompute.pyGetItem "matches_stored").truthy

  pure (EventBundleResponse.mk (← data.pyGetItem "kind") event_obj proof_obj
    recompute_obj)

/-- The field mapping `VmpClient.get_deletion_receipt_bundle` applies to the
decoded body of `GET /v1/deletion-receipts/{receipt_id}/bundle`; the nested
`delete_event_bundle` goes through `_parse_event_bundle_from_dict`. -/
def VmpClient.get_deletion_receipt_bundle_parse (data : Json) :
    Except PyError DeletionReceiptBundleResponse := do
  let receipt ← data.pyGetItem "receipt"
  let ver ← data.pyGetItem "verification"
  let delete_event_bundle ← data.pyGetItem "delete_event_bundle"

  let receipt_obj := DeletionReceiptResponse.mk (← receipt.pyGetItem "receipt_id")
    (← receipt.pyGetItem "tenant_id") (← receipt.pyGetItem "scope")
    (← receipt.pyGetItem "delete_event_id")
    (← receipt.pyGetItem "delete_event_hash_hex")
    (← receipt.pyGetItem "sig_base64") (← receipt.pyGetItem "pubkey_id")
    (← receipt.pyGetItem "pubkey_base64") (← receipt.pyGetItem "pubkey_hex")
    (← receipt.pyGetItem "created_at")

  let ver_obj := DeletionReceiptBundleVerification.mk
    (← ver.pyGetItem "receipt_id") (← ver.pyGetItem "valid").truthy

  let bundle_obj ← VmpClient.parse_event_bundle_from_dict delete_event_bundle

  pure (DeletionReceiptBundleResponse.mk (← data.pyGetItem "kind") receipt_obj
    ver_obj bundle_obj)

/-! ## `wait_for_batch` (`client.py` lines 266-278)

The loop polls `get_proof` and sleeps between attempts.  The embedding
abstracts the environment: `proofs k` is the proof returned by the `k`-th
`get_proof` call (each call assumed to return), `clock k` is the value of
`time.time()` at the deadline check that follows the `k`-th poll, and `t0`
is the value of `time.time()` on entry.  `fuel` bounds how many loop
iterations are observed; the Python loop itself is unbounded. -/

structure WaitForBatchOptions where
  timeout_ms : Int := 30000
  poll_interval_ms : Int := 800
  deriving Repr

inductive WaitOutcome where
  | returned (p : ProofResponse)
  | raised (e : SdkError)
  | outOfFuel
  deriving Repr

/-- `proof.batch_id is not None`: `Json.null` stands for Python `None`. -/
def Json.isNull : Json → Bool
  | .null => true
  | _ => false

def VmpClient.wait_for_batch_go (event_id : String)
    (proofs : Nat → ProofResponse) (clock : Nat → ℚ) (deadline : ℚ) :
    Nat → Nat → WaitOutcome
  | 0, _ => .outOfFuel
  | fuel + 1, k =>
      let proof := proofs k
      if !proof.batch_id.isNull then
        .returned proof
      else if deadline < clock k then
        .raised (.base s!"wait_for_batch timed out for event_id={event_id}")
      else
        VmpClient.wait_for_batch_go event_id proofs clock deadline fuel (k + 1)

/-- `VmpClient.wait_for_batch`: default options when `opts` is `None`, the
deadline is `time.time() + options.timeout_ms / 1000.0`, then the poll
loop. -/
def VmpClient.wait_for_batch (event_id : String)
    (proofs : Nat → ProofResponse) (clock : Nat → ℚ) (t0 : ℚ)
    (opts : Option WaitForBatchOptions) (fuel : Nat) : WaitOutcome :=
  let options := opts.getD {}
  let deadline := t0 + (options.timeout_ms : ℚ) / 1000
  VmpClient.wait_for_batch_go event_id proofs clock deadline fuel 0

/-! ## Helper predicates and lemmas -/

/-- `isErrB x = true` iff the embedded code raised before reaching its
network call / returned value. -/
def isErrB : Except ε α → Bool
  | .error _ => true
  | .ok _ => false

lemma isErrB_bind_of_left {ε α β : Type} {x : Except ε α} (f : α → Except ε β)
    (h : isErrB x = true) : isErrB (x >>= f) = true := by
  cases x with
  | error e => rfl
  | ok a => simp [isErrB] at h

lemma isErrB_bind_unit {ε β : Type} (x : Except ε Unit) (f : Unit → Except ε β)
    (h : isErrB (f ()) = true) : isErrB (x >>= f) = true := by
  cases x with
  | error e => rfl
  | ok a => cases a; simpa [Bind.bind, Except.bind] using h

lemma bind_ok_unit {ε β : Type} {x : Except ε Unit} (f : Unit → Except ε β)
    (h : x = .ok ()) : (x >>= f) = f () := by
  subst h; rfl

/-! ## C5 -/

/-- C5: the field mapping `get_event_bundle` applies to a top-level event
bundle and the one `_parse_event_bundle_from_dict` applies to the nested
`delete_event_bundle` are extensionally equal: on every decoded JSON value
they produce the same `EventBundleResponse` (or fail identically). -/
theorem C5_bundle_mappings_agree :
    ∀ data : Json,
      VmpClient.get_event_bundle_parse data =
        VmpClient.parse_event_bundle_from_dict data :=
  fun _ => rfl

/-! ## C2 -/

/-- A `VmpClient` as constructed with `api_key="key-one"`. -/
def clientKeyOne : ClientState :=
  { api_key := "key-one", tenant_guardrail := none, scope_prefix_guardrail := none }

/-- A `VmpClient` differing from `clientKeyOne` only in its `api_key`. -/
def clientKeyTwo : ClientState :=
  { api_key := "key-two", tenant_guardrail := none, scope_prefix_guardrail := none }

/-- C2 fails on the code: although `_request_json` omits `Authorization` from
its per-request headers when `auth=False`, the `httpx.Client` was constructed
with a client-level `Authorization` header, and the httpx header merge keeps
every client-level header whose name is absent from the per-request headers.
Both offline verify requests therefore still carry `Authorization: Bearer
<api_key>`, and two clients differing only in `api_key` issue different
requests. -/
theorem C2_offline_requests_carry_auth_header :
    ("Authorization", "Bearer key-one") ∈
        (VmpClient.verify_event_bundle_offline_request clientKeyOne (Json.obj [])).headers ∧
    ("Authorization", "Bearer key-one") ∈
        (VmpClient.verify_deletion_bundle_offline_request clientKeyOne (Json.obj [])).headers ∧
    (VmpClient.verify_event_bundle_offline_request clientKeyOne (Json.obj [])).headers ≠
      (VmpClient.verify_event_bundle_offline_request clientKeyTwo (Json.obj [])).headers := by
  refine ⟨?_, ?_, ?_⟩ <;> decide

/-! ## C1 -/

/-- A guardrail-free `VmpClient`, as constructed with only `base_url` and
`api_key`. -/
def plainClient : ClientState :=
  { api_key := "k", tenant_guardrail := none, scope_prefix_guardrail := none }

/-- C1 as stated is false: `admin_list_batches` only rejects limits below 1,
so the out-of-range limit 501 passes validation and the request is issued. -/
theorem C1_limit_501_accepted :
    isErrB (VmpClient.admin_list_batches_prepare plainClient "tenant-a" (some 501)) =
      false := rfl

/-- C1 amended: `admin_list_events` raises a validation error before its
network call for every integer limit outside [1,500]; `admin_list_batches`,
`admin_list_deletion_receipts` and `list_api_keys` do so only for limits
below 1 (limits above 500 are sent to the server). -/
theorem C1_limit_validation_amended (c : ClientState) (token t : String)
    (scope : Option String) (l : Int) :
    (l < 1 ∨ 500 < l →
      isErrB (VmpClient.admin_list_events_prepare c t scope (some l)) = true) ∧
    (l < 1 →
      isErrB (VmpClient.admin_list_batches_prepare c t (some l)) = true ∧
      isErrB (VmpClient.admin_list_deletion_receipts_prepare c t scope (some l)) = true ∧
      isErrB (ProvisioningClient.list_api_keys_prepare token t (some l)) = true) := by
  constructor
  · intro hl
    unfold VmpClient.admin_list_events_prepare
    apply isErrB_bind_unit
    apply isErrB_bind_unit
    apply isErrB_bind_of_left
    have : assert_limit (some l) = .error (.base "limit must be within 1..500") := by
      simp only [assert_limit]
      rw [if_pos]
      exact hl
    rw [this]; rfl
  · intro hl
    have hinline :
        isErrB ((if l < 1 then
          throw (SdkError.base "limit must be a positive integer")
        else pure ()) : Except SdkError Unit) = true := by
      rw [if_pos hl]; rfl
    refine ⟨?_, ?_, ?_⟩
    · unfold VmpClient.admin_list_batches_prepare
      apply isErrB_bind_unit
      apply isErrB_bind_of_left
      exact hinline
    · unfold VmpClient.admin_list_deletion_receipts_prepare
      apply isErrB_bind_unit
      apply isErrB_bind_unit
      apply isErrB_bind_of_left
      exact hinline
    · unfold ProvisioningClient.list_api_keys_prepare
      apply isErrB_bind_unit
      apply isErrB_bind_of_left
      exact hinline

/-- Witness for the amended C1 at concrete inputs: limit 0 is rejected by all
four listing operations, limit 501 by `admin_list_events`. -/
theorem C1_limit_validation_amended_witness :
    isErrB (VmpClient.admin_list_events_prepare plainClient "tenant-a" none (some 501)) = true ∧
    isErrB (VmpClient.admin_list_batches_prepare plainClient "tenant-a" (some 0)) = true := by
  constructor
  · exact (C1_limit_validation_amended plainClient "tok" "tenant-a" none 501).1
      (Or.inr (by decide))
  · exact ((C1_limit_validation_amended plainClient "tok" "tenant-a" none 0).2
      (by decide)).1

/-! ## C6 -/

/-- C6: on either client, a 2xx response whose body is empty or
whitespace-only decodes to the empty object instead of raising a parse
error. -/
theorem C6_empty_success_body (status : Nat) (text : String) (j : Option Json)
    (h2 : 200 ≤ status) (h3 : status < 300) (hempty : pyStrip text = "") :
    VmpClient.classifyResponse ⟨status, text, j⟩ = .ok (Json.obj []) ∧
    ProvisioningClient.classifyResponse ⟨status, text, j⟩ = .ok (Json.obj []) := by
  have hcond : ¬(status < 200 ∨ 300 ≤ status) := by omega
  constructor
  · simp only [VmpClient.classifyResponse]
    rw [if_neg hcond, if_pos hempty]
    rfl
  · simp only [ProvisioningClient.classifyResponse]
    rw [if_neg hcond, if_pos hempty]
    rfl

/-- Witness: HTTP 200 with a whitespace-only body decodes to the empty
object on both clients. -/
theorem C6_empty_success_body_witness :
    VmpClient.classifyResponse ⟨200, " ", none⟩ = .ok (Json.obj []) ∧
    ProvisioningClient.classifyResponse ⟨200, " ", none⟩ = .ok (Json.obj []) :=
  C6_empty_success_body 200 " " none (by decide) (by decide) (by rfl)

/-! ## C10 -/

/-- C10: a client whose stored tenant guardrail is the empty string behaves
exactly like one with no guardrail, because `_enforce_tenant` tests the
truthiness of the stored value: `_enforce_tenant` agrees with the
guardrail-free client on every argument, and never raises on a well-formed
tenant id. -/
theorem C10_empty_tenant_guardrail (c : ClientState)
    (hc : c.tenant_guardrail = some "") (t : String) :
    VmpClient.enforce_tenant c t =
      VmpClient.enforce_tenant { c with tenant_guardrail := none } t ∧
    (assert_tenant_id t = .ok () → VmpClient.enforce_tenant c t = .ok ()) := by
  have heq : VmpClient.enforce_tenant c t =
      VmpClient.enforce_tenant { c with tenant_guardrail := none } t := by
    simp only [VmpClient.enforce_tenant, hc]
    congr 1
  refine ⟨heq, fun hok => ?_⟩
  rw [heq]
  simp only [VmpClient.enforce_tenant]
  rw [hok]
  rfl

/-- A client constructed with `tenant_id=""`. -/
def emptyGuardClient : ClientState :=
  { api_key := "k", tenant_guardrail := some "", scope_prefix_guardrail := none }

/-- Witness: the empty-string guardrail lets the well-formed tenant id
`"acme"` through. -/
theorem C10_empty_tenant_guardrail_witness :
    VmpClient.enforce_tenant emptyGuardClient "acme" = .ok () :=
  (C10_empty_tenant_guardrail emptyGuardClient rfl "acme").2 rfl

/-! ## C4 -/

/-- C4: every non-2xx response raises `VmpHttpError` carrying the status
code and the raw body text; the message is the string `error` field when the
body parses as a JSON object containing one (with the object's `details`
field attached), otherwise the trimmed body text, or `"unknown error"` when
that is empty. -/
theorem C4_http_error_classification (status : Nat) (text : String)
    (j : Option Json) (hs : status < 200 ∨ 300 ≤ status) :
    (∀ kvs s, j = some (.obj kvs) →
      Json.lookup kvs "error" = some (.str s) →
      VmpClient.classifyResponse ⟨status, text, j⟩ =
        .error (.sdk (.http status s text (dictGetPy kvs "details")))) ∧
    (∀ kvs, j = some (.obj kvs) →
      (∀ s, Json.lookup kvs "error" ≠ some (.str s)) →
      VmpClient.classifyResponse ⟨status, text, j⟩ =
        .error (.sdk (.http status
          (if pyStrip text = "" then "unknown error" else pyStrip text) text
          (dictGetPy kvs "details")))) ∧
    ((∀ kvs, j ≠ some (.obj kvs)) →
      VmpClient.classifyResponse ⟨status, text, j⟩ =
        .error (.sdk (.http status
          (if pyStrip text = "" then "unknown error" else pyStrip text) text
          none))) := by
  refine ⟨?_, ?_, ?_⟩
  · intro kvs s hj hlook
    subst hj
    simp only [VmpClient.classifyResponse]
    rw [if_pos hs, hlook]
  · intro kvs hj hnot
    subst hj
    simp only [VmpClient.classifyResponse]
    rw [if_pos hs]
  · intro hnot
    cases j with
    | none =>
        simp only [VmpClient.classifyResponse]
        rw [if_pos hs]
    | some v =>
        cases v with
        | null => simp only [VmpClient.classifyResponse]; rw [if_pos hs]
        | bool b => simp only [VmpClient.classifyResponse]; rw [if_pos hs]
        | num n => simp only [VmpClient.classifyResponse]; rw [if_pos hs]
        | str s => simp only [VmpClient.classifyResponse]; rw [if_pos hs]
        | arr xs => simp only [VmpClient.classifyResponse]; rw [if_pos hs]
        | obj kvs => exact absurd rfl (hnot kvs)

/-- The documented 422 example response. -/
def resp422 : HttpResponse :=
  { status_code := 422,
    text := "\x7b\"error\":\"invalid input\",\"details\":\x7b\"field\":\"scope\"\x7d\x7d",
    json := some (Json.obj
      [("error", Json.str "invalid input"),
       ("details", Json.obj [("field", Json.str "scope")])]) }

/-- Witness: the 422 example yields status 422, message "invalid input" and
details `{"field": "scope"}`. -/
theorem C4_http_error_classification_witness :
    VmpClient.classifyResponse resp422 =
      .error (.sdk (.http 422 "invalid input" resp422.text
        (some (Json.obj [("field", Json.str "scope")])))) := by
  have h := (C4_http_error_classification 422 resp422.text resp422.json
    (Or.inr (by decide))).1
    [("error", Json.str "invalid input"),
     ("details", Json.obj [("field", Json.str "scope")])]
    "invalid input" rfl rfl
  exact h

/-! ## C7 -/

lemma enforce_tenant_mismatch_err (c : ClientState) (g t1 : String)
    (hg : c.tenant_guardrail = some g) (hg2 : g ≠ "") (hne : t1 ≠ g) :
    isErrB (VmpClient.enforce_tenant c t1) = true := by
  simp only [VmpClient.enforce_tenant, hg]
  cases h : assert_tenant_id t1 with
  | error e => rfl
  | ok u =>
      cases u
      rw [if_pos ⟨hg2, hne⟩]
      rfl

/-- C7: with a truthy tenant guardrail `g` configured, every tenant-scoped
operation called with a tenant id different from `g` raises a validation
error before its network call (either the guardrail mismatch or, for
ill-formed tenant ids, the shape check). -/
theorem C7_tenant_guardrail (c : ClientState) (g t1 : String)
    (hg : c.tenant_guardrail = some g) (hg2 : g ≠ "") (hne : t1 ≠ g)
    (s : String) (scope : Option String) (fields : Json) (meta : Option Json)
    (op : String) (ik : Option String) (tid : String) (l : Option Int) :
    isErrB (VmpClient.enforce_tenant c t1) = true ∧
    isErrB (VmpClient.ingest_prepare c t1 s fields meta op ik) = true ∧
    isErrB (VmpClient.delete_prepare c t1 s tid meta) = true ∧
    isErrB (VmpClient.admin_list_events_prepare c t1 scope l) = true ∧
    isErrB (VmpClient.admin_list_batches_prepare c t1 l) = true ∧
    isErrB (VmpClient.admin_list_deletion_receipts_prepare c t1 scope l) = true := by
  have core := enforce_tenant_mismatch_err c g t1 hg hg2 hne
  refine ⟨core, ?_, ?_, ?_, ?_, ?_⟩
  · unfold VmpClient.ingest_prepare
    exact isErrB_bind_of_left _ core
  · unfold VmpClient.delete_prepare
    exact isErrB_bind_of_left _ core
  · unfold VmpClient.admin_list_events_prepare
    exact isErrB_bind_of_left _ core
  · unfold VmpClient.admin_list_batches_prepare
    exact isErrB_bind_of_left _ core
  · unfold VmpClient.admin_list_deletion_receipts_prepare
    exact isErrB_bind_of_left _ core

/-- A client configured with tenant guardrail `"acme"`. -/
def acmeClient : ClientState :=
  { api_key := "k", tenant_guardrail := some "acme", scope_prefix_guardrail := none }

/-- Witness: an ingest for tenant `"other"` on a client guarded for
`"acme"` fails locally. -/
theorem C7_tenant_guardrail_witness :
    isErrB (VmpClient.ingest_prepare acmeClient "other" "user:profile"
      (Json.obj []) none "write" none) = true :=
  (C7_tenant_guardrail acmeClient "acme" "other" rfl (by decide) (by decide)
    "user:profile" none (Json.obj []) none "write" none "e" none).2.1

/-! ## C8 -/

lemma assert_scope_err_no_colon (s : String)
    (h : pyContainsChar s ':' = false) : isErrB (assert_scope s) = true := by
  unfold assert_scope
  cases hne : assert_non_empty "scope" s with
  | error e => rfl
  | ok u =>
      cases u
      by_cases hlen : pyLen s > 128
      · rw [if_pos hlen]; rfl
      · rw [if_neg hlen, if_pos (show (!pyContainsChar s ':') = true by rw [h]; rfl)]
        rfl

lemma enforce_scope_pfx_err (c : ClientState) (s p : String)
    (hc : c.scope_prefix_guardrail = some p)
    (hsw : pyStartsWith s p = false) :
    isErrB (VmpClient.enforce_scope_pfx c s) = true := by
  simp only [VmpClient.enforce_scope_pfx, hc, assert_scope_matches_prefix]
  rw [if_pos (show (!pyStartsWith s p) = true by rw [hsw]; rfl)]
  rfl

lemma scope_block_err {β : Type} (c : ClientState) (s p : String)
    (h : pyContainsChar s ':' = false ∨
      (c.scope_prefix_guardrail = some p ∧ pyStartsWith s p = false))
    (rest : Unit → Except SdkError β) :
    isErrB (assert_scope s >>= fun _ =>
      VmpClient.enforce_scope_pfx c s >>= rest) = true := by
  rcases h with h | ⟨hc, hsw⟩
  · exact isErrB_bind_of_left _ (assert_scope_err_no_colon s h)
  · cases hs : assert_scope s with
    | error e => rfl
    | ok u =>
        cases u
        exact isErrB_bind_of_left rest (enforce_scope_pfx_err c s p hc hsw)

/-- C8: a scope without the `:` namespace separator is rejected by `ingest`,
`delete` and the scope-taking admin listings before any network call, and so
is any scope that does not start with a configured scope-prefix guardrail. -/
theorem C8_scope_validation (c : ClientState) (t s p : String)
    (h : pyContainsChar s ':' = false ∨
      (c.scope_prefix_guardrail = some p ∧ pyStartsWith s p = false))
    (fields : Json) (meta : Option Json) (op : String) (ik : Option String)
    (tid : String) (l : Option Int) :
    isErrB (VmpClient.ingest_prepare c t s fields meta op ik) = true ∧
    isErrB (VmpClient.delete_prepare c t s tid meta) = true ∧
    isErrB (VmpClient.admin_list_events_prepare c t (some s) l) = true ∧
    isErrB (VmpClient.admin_list_deletion_receipts_prepare c t (some s) l) = true := by
  refine ⟨?_, ?_, ?_, ?_⟩
  · unfold VmpClient.ingest_prepare
    apply isErrB_bind_unit
    exact scope_block_err c s p h _
  · unfold VmpClient.delete_prepare
    apply isErrB_bind_unit
    exact scope_block_err c s p h _
  · unfold VmpClient.admin_list_events_prepare
    apply isErrB_bind_unit
    simp only [bind_assoc]
    exact scope_block_err c s p h _
  · unfold VmpClient.admin_list_deletion_receipts_prepare
    apply isErrB_bind_unit
    simp only [bind_assoc]
    exact scope_block_err c s p h _

/-- A client configured with scope-prefix guardrail `"user:"`. -/
def userPfxClient : ClientState :=
  { api_key := "k", tenant_guardrail := none,
    scope_prefix_guardrail := some "user:" }

/-- Witness: a separator-free scope is rejected by ingest, and a scope
outside the configured `"user:"` guardrail is rejected by delete. -/
theorem C8_scope_validation_witness :
    isErrB (VmpClient.ingest_prepare plainClient "tenant-a" "noseparator"
      (Json.obj []) none "write" none) = true ∧
    isErrB (VmpClient.delete_prepare userPfxClient "tenant-a" "billing:core"
      "0123456789abcdef" none) = true := by
  constructor
  · exact (C8_scope_validation plainClient "tenant-a" "noseparator" ""
      (Or.inl (by decide)) (Json.obj []) none "write" none "e" none).1
  · exact (C8_scope_validation userPfxClient "tenant-a" "billing:core" "user:"
      (Or.inr ⟨rfl, by decide⟩) (Json.obj []) none "write" none
      "0123456789abcdef" none).2.1

/-! ## C3 and C9: the poll loop -/

lemma wait_go_returned (eid : String) (proofs : Nat → ProofResponse)
    (clock : Nat → ℚ) (dl : ℚ) :
    ∀ (fuel k0 : Nat) (p : ProofResponse),
      VmpClient.wait_for_batch_go eid proofs clock dl fuel k0 = .returned p →
      ∃ k, k0 ≤ k ∧ p = proofs k ∧ (proofs k).batch_id.isNull = false ∧
        ∀ j, k0 ≤ j → j < k → (proofs j).batch_id.isNull = true := by
  intro fuel
  induction fuel with
  | zero =>
      intro k0 p h
      exact absurd h (by simp [VmpClient.wait_for_batch_go])
  | succ n ih =>
      intro k0 p h
      simp only [VmpClient.wait_for_batch_go] at h
      by_cases hb : (proofs k0).batch_id.isNull
      · rw [if_neg (by rw [hb]; simp)] at h
        by_cases hd : dl < clock k0
        · rw [if_pos hd] at h
          exact absurd h (by simp)
        · rw [if_neg hd] at h
          obtain ⟨k, hk1, hp, hnull, hall⟩ := ih (k0 + 1) p h
          refine ⟨k, by omega, hp, hnull, fun j hj1 hj2 => ?_⟩
          by_cases hj : j = k0
          · rw [hj]; exact hb
          · exact hall j (by omega) hj2
      · rw [if_pos (by rw [Bool.eq_false_iff.mpr hb]; simp)] at h
        refine ⟨k0, le_refl k0, ?_, Bool.eq_false_iff.mpr hb, fun j hj1 hj2 => ?_⟩
        · cases h; rfl
        · omega

lemma wait_go_raised (eid : String) (proofs : Nat → ProofResponse)
    (clock : Nat → ℚ) (dl : ℚ) :
    ∀ (fuel k0 : Nat) (e : SdkError),
      VmpClient.wait_for_batch_go eid proofs clock dl fuel k0 = .raised e →
      ∃ msg, e = SdkError.base msg := by
  intro fuel
  induction fuel with
  | zero =>
      intro k0 e h
      exact absurd h (by simp [VmpClient.wait_for_batch_go])
  | succ n ih =>
      intro k0 e h
      simp only [VmpClient.wait_for_batch_go] at h
      by_cases hb : (proofs k0).batch_id.isNull
      · rw [if_neg (by rw [hb]; simp)] at h
        by_cases hd : dl < clock k0
        · rw [if_pos hd] at h
          cases h
          exact ⟨_, rfl⟩
        · rw [if_neg hd] at h
          exact ih (k0 + 1) e h
      · rw [if_pos (by rw [Bool.eq_false_iff.mpr hb]; simp)] at h
        exact absurd h (by simp)

/-- C3: whatever proof stream and clock the environment provides,
`wait_for_batch` returns only the first polled proof whose `batch_id` is
non-null; and when it raises, the raised error is a plain `VemorakSdkError`
(the deadline message), never the transport-timeout class
`VmpTimeoutError`. -/
theorem C3_wait_for_batch_spec (eid : String) (proofs : Nat → ProofResponse)
    (clock : Nat → ℚ) (t0 : ℚ) (opts : Option WaitForBatchOptions) (fuel : Nat) :
    (∀ p, VmpClient.wait_for_batch eid proofs clock t0 opts fuel = .returned p →
      ∃ k, p = proofs k ∧ (proofs k).batch_id.isNull = false ∧
        ∀ j, j < k → (proofs j).batch_id.isNull = true) ∧
    (∀ e, VmpClient.wait_for_batch eid proofs clock t0 opts fuel = .raised e →
      (∃ msg, e = SdkError.base msg) ∧ ∀ msg, e ≠ SdkError.timeout msg) := by
  constructor
  · intro p h
    obtain ⟨k, _, hp, hnull, hall⟩ :=
      wait_go_returned eid proofs clock _ fuel 0 p h
    exact ⟨k, hp, hnull, fun j hj => hall j (Nat.zero_le j) hj⟩
  · intro e h
    obtain ⟨msg, hmsg⟩ := wait_go_raised eid proofs clock _ fuel 0 e h
    refine ⟨⟨msg, hmsg⟩, fun m hcontra => ?_⟩
    rw [hmsg] at hcontra
    exact SdkError.noConfusion hcontra

/-- A proof response with no batch assignment yet (null batch fields). -/
def demoProofNull : ProofResponse :=
  { event_id := .str "ev", tenant_id := .str "t", scope := .str "user:profile",
    batch_id := .null, leaf_index := .null, leaf_hex := .null,
    root_hex := .null, path := [], sig_base64 := .null, pubkey_id := .null,
    pubkey_base64 := .null, pubkey_hex := .null, batch_created_at := .null }

/-- The same proof response once the server has anchored the event. -/
def demoProofBatch : ProofResponse :=
  { demoProofNull with batch_id := .str "batch-1" }

/-- A poll stream whose second poll sees the batch assignment. -/
def demoProofs : Nat → ProofResponse :=
  fun k => if k = 0 then demoProofNull else demoProofBatch

lemma demo_run_returned :
    VmpClient.wait_for_batch "ev" demoProofs (fun _ => 0) 0 none 2 =
      .returned demoProofBatch := by
  norm_num [VmpClient.wait_for_batch, VmpClient.wait_for_batch_go, demoProofs,
    demoProofNull, demoProofBatch, Json.isNull]

lemma demo_run_raised :
    VmpClient.wait_for_batch "ev" (fun _ => demoProofNull) (fun _ => 31) 0
      none 2 = .raised (.base "wait_for_batch timed out for event_id=ev") := by
  norm_num [VmpClient.wait_for_batch, VmpClient.wait_for_batch_go,
    demoProofNull, Json.isNull]
  rfl

/-- Witness for C3 on two concrete runs: a stream that anchors on the second
poll yields the first non-null proof, and a never-anchoring stream past its
deadline raises a plain `VemorakSdkError`, not `VmpTimeoutError`. -/
theorem C3_wait_for_batch_spec_witness :
    (∃ k, demoProofBatch = demoProofs k ∧
      (demoProofs k).batch_id.isNull = false ∧
      ∀ j, j < k → (demoProofs j).batch_id.isNull = true) ∧
    ((∃ msg, SdkError.base "wait_for_batch timed out for event_id=ev" =
        SdkError.base msg) ∧
      ∀ msg, SdkError.base "wait_for_batch timed out for event_id=ev" ≠
        SdkError.timeout msg) := by
  constructor
  · exact (C3_wait_for_batch_spec "ev" demoProofs (fun _ => 0) 0 none 2).1
      demoProofBatch demo_run_returned
  · exact (C3_wait_for_batch_spec "ev" (fun _ => demoProofNull) (fun _ => 31)
      0 none 2).2 _ demo_run_raised

/-- C9: the loop body polls `get_proof` before it ever looks at the clock:
with at least one iteration of fuel, a first proof that already carries a
`batch_id` is returned no matter how small (or negative) `timeout_ms` is,
and the deadline error can only be raised after a first poll that saw a
null `batch_id`. -/
theorem C9_first_poll_priority (eid : String) (proofs : Nat → ProofResponse)
    (clock : Nat → ℚ) (t0 : ℚ) (opts : Option WaitForBatchOptions) (fuel : Nat) :
    ((proofs 0).batch_id.isNull = false →
      VmpClient.wait_for_batch eid proofs clock t0 opts (fuel + 1) =
        .returned (proofs 0)) ∧
    (∀ e, VmpClient.wait_for_batch eid proofs clock t0 opts (fuel + 1) =
        .raised e → (proofs 0).batch_id.isNull = true) := by
  constructor
  · intro h
    simp [VmpClient.wait_for_batch, VmpClient.wait_for_batch_go, h]
  · intro e h
    cases hb : (proofs 0).batch_id.isNull
    · simp [VmpClient.wait_for_batch, VmpClient.wait_for_batch_go, hb] at h
    · rfl

/-- Witness for C9: with `timeout_ms = -5`, a first poll that already has a
batch id is still returned. -/
theorem C9_first_poll_priority_witness :
    VmpClient.wait_for_batch "ev" (fun _ => demoProofBatch) (fun _ => 99) 0
      (some { timeout_ms := -5, poll_interval_ms := 800 }) 3 =
      .returned demoProofBatch :=
  (C9_first_poll_priority "ev" (fun _ => demoProofBatch) (fun _ => 99) 0
    (some { timeout_ms := -5, poll_interval_ms := 800 }) 2).1 rfl

end Vemorak
